import Mathlib

/-!
Verification development for the stream-cave daemon's event pipeline.

The Rust sources are embedded shallowly: pure data flow becomes Lean
functions, channel sends become produced output lists, the mutable
backoff durations become explicit next-duration functions, and the
`expect`-induced panics become `Except.error` / `Option.none` results.
Durations are whole seconds (`Duration::from_secs` / `Duration::new (s, 0)`
throughout the sources), so they are modelled as `Nat`.
-/

namespace StreamCave

/-! ## Data model (`src/cave.rs`) -/

/-- `Player` from `cave.rs`: which player process to use. -/
inductive Player where
  | Mpv
  | Streamlink
deriving DecidableEq

/-- `StreamConfig` from `cave.rs`: individual twitch stream settings.
Qualities are `u16` in Rust; values, not overflow, are at issue here, so `Nat`. -/
structure StreamConfig where
  name : String
  id : Nat
  quality_overides : List (String × Nat)
  streams_to_close_on : List String
  streams_to_open_on : List String
deriving DecidableEq

/-- `SearchData` from `twitch_socket/api_structs.rs`, restricted to the fields
the embedded code reads (`broadcaster_login`, `is_live`). -/
structure SearchData where
  broadcaster_login : String
  is_live : Bool
deriving DecidableEq

/-- `StreamSearch` from `twitch_socket/api_structs.rs`: the search endpoint's
response body. -/
structure StreamSearch where
  data : List SearchData
deriving DecidableEq

/-! ## Player argv (`cave/player.rs` `get_stream`, `cave/tasks_handler.rs` `task_spawner`) -/

/-- `get_stream` from `cave/player.rs`: the argv (program plus arguments) of the
player command built for a stream url and quality. -/
def get_stream (player : Player) (stream : String) (quality : Nat) : List String :=
  match player with
  | Player.Mpv =>
      if quality = 0 then
        ["mpv", stream, "--no-resume-playback", "--ytdl-format=bestaudio"]
      else
        ["mpv", stream, "--no-resume-playback",
          "--ytdl-format=best[height<=?" ++ toString quality ++ "]"]
  | Player.Streamlink =>
      if quality = 0 then
        ["streamlink", stream, "audio_only"]
      else
        ["streamlink", stream, toString quality ++ "p"]

/-- The argv `task_spawner` (`cave/tasks_handler.rs`) produces for a play request:
it composes `stream = website ++ streamer_name` and calls `get_stream`. -/
def task_spawner_argv (player : Player) (website streamer_name : String)
    (quality : Nat) : List String :=
  get_stream player (website ++ streamer_name) quality

/-- Modelled from the spec: the argv table of §4.5 (Player Spawner), with
`stream-url = streaming-site + login` and the sentinel quality 0 selecting the
audio-only form. Written from the spec's words for comparison with
`task_spawner_argv`. -/
def spec_player_argv (player : Player) (site login : String) (quality : Nat) :
    List String :=
  let url := site ++ login
  match player with
  | Player.Mpv =>
      if quality = 0 then
        ["mpv", url, "--no-resume-playback", "--ytdl-format=bestaudio"]
      else
        ["mpv", url, "--no-resume-playback",
          "--ytdl-format=best[height<=?" ++ toString quality ++ "]"]
  | Player.Streamlink =>
      if quality = 0 then
        ["streamlink", url, "audio_only"]
      else
        ["streamlink", url, toString quality ++ "p"]

/-! ## Event Correlator (`watcher/event_handler.rs`) -/

/-- `handle_event` from `watcher/event_handler.rs`: resolve the play quality for a
`(tag, login)` pair against the config table and the global profile, producing
the `(login, quality)` pair handed to the sender.  The Rust code starts from the
global quality, looks the table up by `streamer.name == stream.1`, and inside a
found config looks `quality_overides` up by profile name. -/
def handle_event (configs : List StreamConfig) (stream : String × String)
    (global_profile : String × Nat) : String × Nat :=
  let stream_quality :=
    match configs.find? (fun streamer => streamer.name == stream.2) with
    | some config =>
        match config.quality_overides.find?
            (fun p => p.1 == global_profile.1) with
        | some current_profile_override => current_profile_override.2
        | none => global_profile.2
    | none => global_profile.2
  (stream.2, stream_quality)

/-- The per-channel receive loop of `event_handler`: each pair received (on the
WebSocket-notification channel or on the exit-retry channel) produces exactly one
`handle_event` call, hence one emitted pair. -/
def event_loop (configs : List StreamConfig) (global_profile : String × Nat)
    (events : List (String × String)) : List (String × Nat) :=
  events.map (fun e => handle_event configs e global_profile)

/-- `handle_event`'s send: `sender.send(task).await.expect("Task spawner reciever
closed")`.  A send to a closed channel is an `Err` in Rust; `expect` turns it
into a panic, modelled as `Except.error` carrying the `expect` message. -/
def handle_event_send (configs : List StreamConfig) (stream : String × String)
    (global_profile : String × Nat) (receiver_open : Bool) :
    Except String (String × Nat) :=
  if receiver_open then Except.ok (handle_event configs stream global_profile)
  else Except.error "Task spawner reciever closed"

/-- Outcome of the Player Spawner's hand-over of a child exit to the Exit
Diagnoser (`cave/tasks_handler.rs` `task_spawner`). -/
inductive ForwardOutcome where
  | forwarded (streamer_name : String) (exit_code : Nat)
  | loggedDropped
deriving DecidableEq

/-- `task_spawner`'s monitoring task (`cave/tasks_handler.rs`): it sends
`(streamer_name, player exit result)` with `.unwrap_or_else(|error| eprintln!(…))`,
so a send to a closed channel is logged and the pair dropped, without panicking.
The exit result is abstracted to its exit code. -/
def task_spawner_forward (receiver_open : Bool) (streamer_name : String)
    (exit_code : Nat) : ForwardOutcome :=
  if receiver_open then ForwardOutcome.forwarded streamer_name exit_code
  else ForwardOutcome.loggedDropped

/-! ## Exit Diagnoser (`cave/tasks_handler.rs` `handle_exit_status`) -/

/-- One result of the search-endpoint request inside the diagnosis loop.
`ok status json text`: the request returned; for status 200 the code parses the
body into a `StreamSearch` (`json = none` models malformed data), for other
statuses it reads the body text (`text = none` models a text-read error).
`err` is a network/IO error of the request itself. -/
inductive ApiResult where
  | ok (status : Nat) (json : Option StreamSearch) (text : Option String)
  | err
deriving DecidableEq

/-- What one turn of the diagnosis loop does: either leave the loop with the
pairs sent to the Correlator and the codes sent on the restart channel, or run
another turn carrying the current wait duration. -/
inductive DiagOutcome where
  | exitLoop (emits : List (String × String)) (restarts : List Nat)
  | again (wait : Nat)
deriving DecidableEq

/-- `MAX_WAIT_TIME` from `handle_exit_status`: 180 seconds. -/
def MAX_WAIT_TIME : Nat := 180

/-- The diagnosis loop's next wait duration on a network error
(`handle_exit_status`, the `Err` arm): `Less` doubles and clamps to
`MAX_WAIT_TIME`, `Equal` keeps the duration, `Greater` resets to
`MAX_WAIT_TIME`. -/
def next_wait_exit (wait : Nat) : Nat :=
  if wait < MAX_WAIT_TIME then
    if wait * 2 > MAX_WAIT_TIME then MAX_WAIT_TIME else wait * 2
  else if MAX_WAIT_TIME < wait then MAX_WAIT_TIME
  else wait

/-- One iteration of the diagnosis loop of `handle_exit_status` on the result of
its request.  Mirrors the Rust control flow: on 200, malformed data or a missing
record returns; a found live record sends `(retry, name)` and returns; a found
offline record falls through the `if is_live` with no `return`, so the loop runs
again (with the wait unchanged and no sleep).  401 sends 2 on the restart
channel and returns; any other status returns after logging; a network error
updates the wait, sleeps and retries. -/
def handle_exit_status_step (stream_name : String) (wait : Nat) (r : ApiResult) :
    DiagOutcome :=
  match r with
  | ApiResult.ok status json _text =>
      if status = 200 then
        match json with
        | none => DiagOutcome.exitLoop [] []
        | some json_data =>
            match json_data.data.find?
                (fun data_set => data_set.broadcaster_login == stream_name) with
            | none => DiagOutcome.exitLoop [] []
            | some stream_status =>
                if stream_status.is_live then
                  DiagOutcome.exitLoop [("retry", stream_name)] []
                else
                  DiagOutcome.again wait
      else if status = 401 then DiagOutcome.exitLoop [] [2]
      else DiagOutcome.exitLoop [] []
  | ApiResult.err => DiagOutcome.again (next_wait_exit wait)

/-- The diagnosis loop run against a list of request results, starting from the
given wait duration (the code starts at 1 second).  `some (emits, restarts)`
when the loop returns within the list; `none` when it consumes every result and
is still looping. -/
def handle_exit_status_loop (stream_name : String) :
    Nat → List ApiResult → Option (List (String × String) × List Nat)
  | _, [] => none
  | wait, r :: rs =>
      match handle_exit_status_step stream_name wait r with
      | DiagOutcome.exitLoop emits restarts => some (emits, restarts)
      | DiagOutcome.again wait' => handle_exit_status_loop stream_name wait' rs

/-! ## Backoff schedules (`watcher/twitch_socket.rs`, `cave/tasks_handler.rs`) -/

/-- The sleep durations of a retry loop across `n` successive failures: the
duration is updated by `next` from `start` before each sleep, as in the Rust
loops (update, log, sleep). -/
def backoff_seq (next : Nat → Nat) : Nat → Nat → List Nat
  | _, 0 => []
  | wait, n + 1 =>
      let wait' := next wait
      wait' :: backoff_seq next wait' n

/-- `reconnect_websocket`'s next wait duration (`watcher/twitch_socket.rs`):
`Less` doubles without clamping, `Greater` resets to `MAX_WAIT` (180 s),
`Equal` keeps the duration. -/
def next_wait_reconnect (time : Nat) : Nat :=
  if time < MAX_WAIT_TIME then time * 2
  else if MAX_WAIT_TIME < time then MAX_WAIT_TIME
  else time

/-- The sleeps of `reconnect_websocket` across `n` successive dial failures,
starting from `time = 1` second. -/
def reconnect_sleeps (n : Nat) : List Nat :=
  backoff_seq next_wait_reconnect 1 n

/-- `subscribe_to_event`'s next wait duration (`watcher/twitch_socket.rs`): the
`match time.cmp(&MAX_WAIT)` computes `time * 2` in its `Less` arm but its value
is discarded — `time` is immutable and never reassigned — so the wait stays at
its current value. -/
def next_wait_subscribe (time : Nat) : Nat := time

/-- The sleeps of `subscribe_to_event` across `n` successive network errors,
starting from `time = 1` second: `sleep(time)` with `time` never reassigned. -/
def subscribe_sleeps (n : Nat) : List Nat :=
  backoff_seq next_wait_subscribe 1 n

/-- The sleeps of the exit-diagnosis loop across `n` successive network errors,
starting from `wait_time = 1` second. -/
def exit_diag_sleeps (n : Nat) : List Nat :=
  backoff_seq next_wait_exit 1 n

/-! ## WebSocket message handling (`watcher/twitch_socket.rs`) -/

/-- `MessageType` from `twitch_socket/api_structs.rs`. -/
inductive MessageType where
  | sessionWelcome
  | sessionKeepalive
  | notificationType
  | sessionReconnect
  | revocation
deriving DecidableEq

/-- `SubscriptionStatus` from `twitch_socket/api_structs.rs`. -/
inductive SubscriptionStatus where
  | enabled
  | authorizationRevoked
  | userRemoved
  | versionRemoved
deriving DecidableEq

/-- `EventType` from `twitch_socket/api_structs.rs`. -/
inductive EventType where
  | live
  | playlist
  | watchParty
  | premiere
  | rerun
deriving DecidableEq

/-- `WebsocketSubscription` from `twitch_socket/api_structs.rs`, restricted to
the fields the handlers read. -/
structure WebsocketSubscription where
  subscritpion_type : String
  version : String
  status : SubscriptionStatus
  broadcaster_user_id : String
deriving DecidableEq

/-- `NotificationPayload` from `twitch_socket/api_structs.rs`, restricted to the
fields the handlers read. -/
structure NotificationPayload where
  subscription : WebsocketSubscription
  event_type : EventType
  broadcaster_user_login : String
deriving DecidableEq

/-- `WebsocketPayload` from `twitch_socket/api_structs.rs`.  The connection
variant keeps the session id and the optional reconnect url. -/
inductive WebsocketPayload where
  | notificationP (p : NotificationPayload)
  | connection (session_id : String) (reconnect_url : Option String)
  | revocationP (subscription : WebsocketSubscription)
  | keepAlive
deriving DecidableEq

/-- The observable effect of handling one websocket frame: the `(tag, login)`
pairs sent to the Event Correlator and the codes sent on the restart channel. -/
structure SocketEffect where
  emits : List (String × String)
  restarts : List Nat
deriving DecidableEq

/-- `parse_connection_notification_message` from `watcher/twitch_socket.rs`.
A `stream.online` live notification emits `(live, broadcaster_user_login)`;
a revocation with status `authorization_revoked` sends 2 on the restart channel;
`user_removed` and `version_removed` only log; payload mismatches only log. -/
def parse_connection_notification_message (message_type : MessageType)
    (payload : WebsocketPayload) : SocketEffect :=
  match message_type with
  | MessageType.notificationType =>
      match payload with
      | WebsocketPayload.notificationP subscription =>
          if subscription.subscription.subscritpion_type = "stream.online" ∧
              subscription.event_type = EventType.live then
            { emits := [("live", subscription.broadcaster_user_login)],
              restarts := [] }
          else { emits := [], restarts := [] }
      | _ => { emits := [], restarts := [] }
  | MessageType.revocation =>
      match payload with
      | WebsocketPayload.revocationP subscription =>
          match subscription.status with
          | SubscriptionStatus.authorizationRevoked =>
              { emits := [], restarts := [2] }
          | _ => { emits := [], restarts := [] }
      | _ => { emits := [], restarts := [] }
  | _ => { emits := [], restarts := [] }

/-- `parse_connection_reply_message` from `watcher/twitch_socket.rs`, as the
session-id cell value it leaves behind and the restart codes it sends.
A welcome stores the session id from its payload; a reconnect message dials the
reconnect url (`reconnect_dial_ok` is that dial's outcome; a missing url is an
`expect` panic, modelled as `none`); a keepalive does nothing. -/
def parse_connection_reply_message (message_type : MessageType)
    (payload : WebsocketPayload) (session_id : String)
    (reconnect_dial_ok : Bool) : Option (String × List Nat) :=
  match message_type with
  | MessageType.sessionWelcome =>
      match payload with
      | WebsocketPayload.connection sid _ => some (sid, [])
      | _ => some (session_id, [])
  | MessageType.sessionReconnect =>
      match payload with
      | WebsocketPayload.connection _ reconnect_url =>
          match reconnect_url with
          | none => none
          | some _ =>
              if reconnect_dial_ok then some (session_id, [])
              else some (session_id, [1])
      | _ => some (session_id, [])
  | _ => some (session_id, [])

/-- The restart codes `subscribe_to_event` (`watcher/twitch_socket.rs`) sends for
one returned response: 2 on a 401, nothing otherwise (202 and any other status
only log). -/
def subscribe_response_restarts (status : Nat) : List Nat :=
  if status = 401 then [2] else []

/-- One observable step of any actor that holds the restart-channel sender,
covering every send site in the embedded sources: the websocket frame handlers,
the frame-read error and idle-timeout paths of `parse_stream_message` /
`parse_twitch_webocket_messages`, the subscription loop, and the diagnosis
loop. -/
inductive ProgramStep where
  | socketNotifMsg (message_type : MessageType) (payload : WebsocketPayload)
  | socketReplyMsg (message_type : MessageType) (payload : WebsocketPayload)
      (session_id : String) (reconnect_dial_ok : Bool)
  | socketFrameError
  | socketIdleTimeout
  | subscribeResponse (status : Nat)
  | subscribeNetworkError
  | diagStep (stream_name : String) (wait : Nat) (r : ApiResult)

/-- The restart codes one `ProgramStep` sends: frame-read errors and the idle
timeout send 1; the other cases follow the embedded handler functions. -/
def restarts_of : ProgramStep → List Nat
  | ProgramStep.socketNotifMsg t p =>
      (parse_connection_notification_message t p).restarts
  | ProgramStep.socketReplyMsg t p sid ok =>
      match parse_connection_reply_message t p sid ok with
      | some (_, restarts) => restarts
      | none => []
  | ProgramStep.socketFrameError => [1]
  | ProgramStep.socketIdleTimeout => [1]
  | ProgramStep.subscribeResponse status => subscribe_response_restarts status
  | ProgramStep.subscribeNetworkError => []
  | ProgramStep.diagStep name wait r =>
      match handle_exit_status_step name wait r with
      | DiagOutcome.exitLoop _ restarts => restarts
      | DiagOutcome.again _ => []

/-! ## Subscribe-after-welcome gating (`watcher/twitch_socket.rs`
`twitch_websocket`) -/

/-- The shared state of the two sub-tasks of `twitch_websocket`: the
mutex-guarded session-id cell (`String::new()` initially, so `""` is the empty
cell), whether the subscription task has passed its poll-until-nonempty gate,
and the broadcaster ids still waiting on the Scheduler Loader channel. -/
structure SocketState where
  session_id : String
  gate_passed : Bool
  pending : List Nat
deriving DecidableEq

/-- The initial state of `twitch_websocket` for a list of scheduled ids. -/
def init_state (ids : List Nat) : SocketState :=
  { session_id := "", gate_passed := false, pending := ids }

/-- Observable events of the interleaved execution of the frame-reader task and
the subscription task. -/
inductive Ev where
  | welcomeFrame (sid : String)
  | keepaliveFrame
  | notifyFrame (login : String)
  | gatePass
  | subscribeCall (id : Nat)
deriving DecidableEq

/-- One interleaved step.  Only a welcome frame writes the session-id cell
(`parse_connection_reply_message`, `SessionWelcome` arm); the subscription task
may pass its gate only once the cell is non-empty (the `while ….is_empty()`
poll loop of `twitch_websocket`); a subscription request for the next pending id
requires the gate to have been passed. -/
inductive SocketStep : SocketState → Ev → SocketState → Prop where
  | welcome (s : SocketState) (sid : String) :
      SocketStep s (Ev.welcomeFrame sid) { s with session_id := sid }
  | keepalive (s : SocketState) : SocketStep s Ev.keepaliveFrame s
  | notify (s : SocketState) (login : String) :
      SocketStep s (Ev.notifyFrame login) s
  | gate (s : SocketState) (hne : s.session_id ≠ "")
      (hg : s.gate_passed = false) :
      SocketStep s Ev.gatePass { s with gate_passed := true }
  | subscribe (s : SocketState) (id : Nat) (rest : List Nat)
      (hg : s.gate_passed = true) (hp : s.pending = id :: rest) :
      SocketStep s (Ev.subscribeCall id) { s with pending := rest }

/-- A run: a trace of events relating an initial state to a final state. -/
inductive SocketRun : SocketState → List Ev → SocketState → Prop where
  | nil (s : SocketState) : SocketRun s [] s
  | cons {s s' s'' : SocketState} {e : Ev} {tr : List Ev} :
      SocketStep s e s' → SocketRun s' tr s'' → SocketRun s (e :: tr) s''

/-! ## `Streams::edit_stream` (`cave.rs`) -/

/-- Rust's `str::split(',')`: the pieces of a character list around commas.
Always yields at least one piece. -/
def split_commas : List Char → List (List Char)
  | [] => [[]]
  | c :: rest =>
      if c = ',' then [] :: split_commas rest
      else
        match split_commas rest with
        | [] => [[c]]
        | piece :: pieces => (c :: piece) :: pieces

/-- Rust's `str::parse::<u16>()`: an optional leading `+`, then at least one
ascii digit, with the value within `u16` range; anything else fails. -/
def parse_u16 (s : List Char) : Option Nat :=
  let digits := match s with
    | '+' :: rest => rest
    | other => other
  if digits = [] then none
  else if digits.all Char.isDigit then
    let value := digits.foldl (fun acc c => acc * 10 + (c.toNat - 48)) 0
    if value ≤ 65535 then some value else none
  else none

/-- One element of the quality-override list, parsed as in `edit_stream`
(`cave.rs`): split on commas, `[0]` is the profile, `[1]` parses as `u16`.
`none` models the index-out-of-bounds panic of `overrides_split[1]` when the
element has no comma; `some (Except.error ())` is the `Err` of a failed
quality parse; `some (Except.ok _)` the parsed pair. -/
def parse_override (to_parse : String) : Option (Except Unit (String × Nat)) :=
  match split_commas to_parse.data with
  | [] => none
  | [_] => none
  | profile :: quality :: _ =>
      match parse_u16 quality with
      | some q => some (Except.ok (String.mk profile, q))
      | none => some (Except.error ())

/-- `edit_stream`'s `…map(…).collect::<Result<Vec<_>, _>>()`: the elements are
processed in order and the first failure wins — an earlier `Err` prevents a
later panic and conversely. -/
def collect_overrides : List String → Option (Except Unit (List (String × Nat)))
  | [] => some (Except.ok [])
  | s :: rest =>
      match parse_override s with
      | none => none
      | some (Except.error e) => some (Except.error e)
      | some (Except.ok p) =>
          match collect_overrides rest with
          | none => none
          | some (Except.error e) => some (Except.error e)
          | some (Except.ok ps) => some (Except.ok (p :: ps))

/-- `edit_stream`'s inner loop body: replace the first existing override with
the same profile name, else push the new override at the end. -/
def upsert_override : List (String × Nat) → (String × Nat) → List (String × Nat)
  | [], ov => [ov]
  | p :: rest, ov =>
      if p.1 = ov.1 then ov :: rest else p :: upsert_override rest ov

/-- Apply the parsed overrides, in order, to the found streamer's
`quality_overides`. -/
def edit_streamer (c : StreamConfig) (ovs : List (String × Nat)) : StreamConfig :=
  { c with quality_overides := ovs.foldl upsert_override c.quality_overides }

/-- `self.streams.iter_mut().find(|config| config.name == name)` followed by the
override loop: edit the first config with the given name, leave the rest (and a
set without the name) unchanged. -/
def modify_first_config (name : String) (ovs : List (String × Nat)) :
    List StreamConfig → List StreamConfig
  | [] => []
  | c :: rest =>
      if c.name = name then edit_streamer c ovs :: rest
      else c :: modify_first_config name ovs rest

/-- `Streams::edit_stream` from `cave.rs`, as the pair of its `Result` and the
final `streams` vector (the Rust method mutates `&mut self`; the parse phase
runs before any mutation, so the `?` early return leaves `self` untouched).
`none` models a panic while parsing an element with no comma. -/
def edit_stream (streams : List StreamConfig) (name : String)
    (quality_overides : Option (List String)) :
    Option (Except Unit Unit × List StreamConfig) :=
  match quality_overides with
  | none => some (Except.ok (), streams)
  | some overrides =>
      match collect_overrides overrides with
      | none => none
      | some (Except.error e) => some (Except.error e, streams)
      | some (Except.ok profile_overrides) =>
          some (Except.ok (), modify_first_config name profile_overrides streams)

/-- The quality part of one override element: the piece after the first comma
(defined when the element has at least two pieces). -/
def quality_part (s : String) : List Char :=
  (split_commas s.data).getD 1 []

/-! ## Helper lemmas -/

theorem find?_key_of_mem_nodup {α : Type} (key : α → String) {l : List α}
    {x : α} {target : String} (hmem : x ∈ l) (hkey : key x = target)
    (hnd : (l.map key).Nodup) :
    l.find? (fun a => key a == target) = some x := by
  induction l with
  | nil => cases hmem
  | cons a t ih =>
      rw [List.map_cons, List.nodup_cons] at hnd
      by_cases ha : key a = target
      · have hax : a = x := by
          rcases List.mem_cons.mp hmem with h | h
          · exact h.symm
          · exact absurd (ha ▸ hkey ▸ List.mem_map_of_mem key h) hnd.1
        rw [List.find?_cons_of_pos _ (by simp [ha]), hax]
      · have hx : x ∈ t := by
          rcases List.mem_cons.mp hmem with h | h
          · exact absurd (h ▸ hkey) ha
          · exact h
        rw [List.find?_cons_of_neg _ (by simp [ha])]
        exact ih hx hnd.2

theorem find?_key_eq_none {α : Type} (key : α → String) {l : List α}
    {target : String} (h : ∀ x ∈ l, key x ≠ target) :
    l.find? (fun a => key a == target) = none := by
  rw [List.find?_eq_none]
  intro x hx
  simpa using h x hx

theorem backoff_seq_const (wait n : Nat) :
    backoff_seq next_wait_subscribe wait n = List.replicate n wait := by
  induction n generalizing wait with
  | zero => rfl
  | succ k ih => simp [backoff_seq, next_wait_subscribe, List.replicate_succ, ih]

theorem parse_override_two_pieces {s : String} {profile quality : List Char}
    {rest : List (List Char)}
    (hsplit : split_commas s.data = profile :: quality :: rest) :
    parse_override s =
      match parse_u16 quality with
      | some q => some (Except.ok (String.mk profile, q))
      | none => some (Except.error ()) := by
  simp [parse_override, hsplit]

theorem quality_part_two_pieces {s : String} {profile quality : List Char}
    {rest : List (List Char)}
    (hsplit : split_commas s.data = profile :: quality :: rest) :
    quality_part s = quality := by
  simp [quality_part, hsplit]

theorem split_two_pieces_of_le {s : String}
    (h2 : 2 ≤ (split_commas s.data).length) :
    ∃ profile rest, split_commas s.data = profile :: quality_part s :: rest := by
  rcases hsplit : split_commas s.data with _ | ⟨p, _ | ⟨q, rest⟩⟩
  · simp [hsplit] at h2
  · simp [hsplit] at h2
  · exact ⟨p, rest, by rw [quality_part_two_pieces hsplit]⟩

theorem collect_overrides_error {overrides : List String}
    (hc : ∀ s ∈ overrides, 2 ≤ (split_commas s.data).length)
    (hex : ∃ s ∈ overrides, parse_u16 (quality_part s) = none) :
    collect_overrides overrides = some (Except.error ()) := by
  induction overrides with
  | nil => simp at hex
  | cons s rest ih =>
      obtain ⟨profile, pieces, hsplit⟩ :=
        split_two_pieces_of_le (hc s (List.mem_cons_self s rest))
      rcases hq : parse_u16 (quality_part s) with _ | q
      · rw [collect_overrides, parse_override_two_pieces hsplit, hq]
      · have hrest : ∃ x ∈ rest, parse_u16 (quality_part x) = none := by
          rcases hex with ⟨x, hx, hxq⟩
          rcases List.mem_cons.mp hx with h | h
          · exact absurd (h ▸ hxq) (by simp [hq])
          · exact ⟨x, h, hxq⟩
        rw [collect_overrides, parse_override_two_pieces hsplit, hq,
          ih (fun x hx => hc x (List.mem_cons_of_mem s hx)) hrest]

theorem collect_overrides_ok {overrides : List String}
    (hc : ∀ s ∈ overrides, 2 ≤ (split_commas s.data).length)
    (hall : ∀ s ∈ overrides, parse_u16 (quality_part s) ≠ none) :
    ∃ ovs, collect_overrides overrides = some (Except.ok ovs) := by
  induction overrides with
  | nil => exact ⟨[], rfl⟩
  | cons s rest ih =>
      obtain ⟨profile, pieces, hsplit⟩ :=
        split_two_pieces_of_le (hc s (List.mem_cons_self s rest))
      rcases hq : parse_u16 (quality_part s) with _ | q
      · exact absurd hq (hall s (List.mem_cons_self s rest))
      · obtain ⟨ovs, hovs⟩ := ih (fun x hx => hc x (List.mem_cons_of_mem s hx))
          (fun x hx => hall x (List.mem_cons_of_mem s hx))
        refine ⟨(String.mk profile, q) :: ovs, ?_⟩
        rw [collect_overrides, parse_override_two_pieces hsplit, hq, hovs]

theorem modify_first_config_absent {streams : List StreamConfig} {name : String}
    (ovs : List (String × Nat)) (h : ∀ c ∈ streams, c.name ≠ name) :
    modify_first_config name ovs streams = streams := by
  induction streams with
  | nil => rfl
  | cons c rest ih =>
      rw [modify_first_config, if_neg (h c (List.mem_cons_self c rest)),
        ih (fun x hx => h x (List.mem_cons_of_mem c hx))]

theorem socket_run_subscribe_aux {s s' : SocketState} {tr : List Ev}
    (h : SocketRun s tr s') :
    ∀ (t1 : List Ev) (id : Nat) (t2 : List Ev),
      tr = t1 ++ Ev.subscribeCall id :: t2 →
        s.gate_passed = true ∨ s.session_id ≠ "" ∨
          ∃ sid, Ev.welcomeFrame sid ∈ t1 ∧ sid ≠ "" := by
  induction h with
  | nil s => intro t1 id t2 heq; simp at heq
  | cons hstep hrun ih =>
      intro t1 id t2 heq
      cases t1 with
      | nil =>
          simp only [List.nil_append, List.cons.injEq] at heq
          obtain ⟨he, -⟩ := heq
          subst he
          cases hstep with
          | subscribe id2 rest hg hp => exact Or.inl hg
      | cons e1 t1' =>
          simp only [List.cons_append, List.cons.injEq] at heq
          obtain ⟨he, htr⟩ := heq
          subst he
          have IH := ih t1' id t2 htr
          cases hstep with
          | welcome sid =>
              rcases IH with h1 | h2 | ⟨sid', hmem, hne⟩
              · exact Or.inl h1
              · exact Or.inr (Or.inr ⟨sid, List.mem_cons_self _ _, h2⟩)
              · exact Or.inr (Or.inr ⟨sid', List.mem_cons_of_mem _ hmem, hne⟩)
          | keepalive =>
              rcases IH with h1 | h2 | ⟨sid', hmem, hne⟩
              · exact Or.inl h1
              · exact Or.inr (Or.inl h2)
              · exact Or.inr (Or.inr ⟨sid', List.mem_cons_of_mem _ hmem, hne⟩)
          | notify login =>
              rcases IH with h1 | h2 | ⟨sid', hmem, hne⟩
              · exact Or.inl h1
              · exact Or.inr (Or.inl h2)
              · exact Or.inr (Or.inr ⟨sid', List.mem_cons_of_mem _ hmem, hne⟩)
          | gate hne hg => exact Or.inr (Or.inl hne)
          | subscribe id' rest hg hp => exact Or.inl hg

theorem restarts_of_diag_ok (name : String) (wait status : Nat)
    (json : Option StreamSearch) (text : Option String) :
    restarts_of (ProgramStep.diagStep name wait (ApiResult.ok status json text)) =
      if status = 401 then [2] else [] := by
  by_cases h200 : status = 200
  · subst h200
    rcases json with _ | j
    · rfl
    · rcases hf : j.data.find? (fun d => d.broadcaster_login == name) with _ | e
      · simp [restarts_of, handle_exit_status_step, hf]
      · rcases hlive : e.is_live <;>
          simp [restarts_of, handle_exit_status_step, hf, hlive]
  · by_cases h401 : status = 401 <;>
      simp [restarts_of, handle_exit_status_step, h200, h401]

/-! ## Claims -/

/-- C9: for every play request the Player Spawner builds exactly the specified
argv — for mpv, `mpv <url> --no-resume-playback --ytdl-format=bestaudio` at
quality 0 and `… --ytdl-format=best[height<=?<quality>]` above it; for
streamlink, `streamlink <url> audio_only` at quality 0 and
`streamlink <url> <quality>p` above it — with
`url = streaming-site prefix ++ login`; the sentinel quality 0 always selects
the player's audio-only form. -/
theorem player_argv_matches_spec (player : Player) (site login : String)
    (quality : Nat) :
    task_spawner_argv player site login quality =
      spec_player_argv player site login quality := by
  cases player <;> by_cases h : quality = 0 <;>
    simp [task_spawner_argv, get_stream, spec_player_argv, h]

/-- C3 (failing evaluation): the redial backoff of `reconnect_websocket` is not
bounded by 180 s and is not non-decreasing — after 8 successive dial failures it
sleeps 256 s (the `Less` arm doubles 128 without clamping), then falls back to
180 s. -/
theorem reconnect_backoff_exceeds_bound :
    reconnect_sleeps 9 = [2, 4, 8, 16, 32, 64, 128, 256, 180] ∧
      256 ∈ reconnect_sleeps 9 ∧ ¬ 256 ≤ 180 ∧
      (reconnect_sleeps 9).getD 7 0 = 256 ∧ (reconnect_sleeps 9).getD 8 0 = 180 ∧
      ¬ (reconnect_sleeps 9).getD 7 0 ≤ (reconnect_sleeps 9).getD 8 0 := by
  decide

/-- C4 (failing evaluation): the subscription-request backoff of
`subscribe_to_event` never doubles — `time` is immutable and the doubled value
computed by its `match` is discarded — so every sleep is 1 s, not the claimed
1 s, 2 s, 4 s, … schedule. -/
theorem subscribe_backoff_never_doubles :
    (∀ n : Nat, subscribe_sleeps n = List.replicate n 1) ∧
      subscribe_sleeps 3 = [1, 1, 1] ∧ subscribe_sleeps 3 ≠ [1, 2, 4] := by
  refine ⟨fun n => backoff_seq_const 1 n, by decide, by decide⟩

/-- C2 (failing evaluation): when every request of the diagnosis loop returns
200 with a record for the login whose `is_live` is false, the loop of
`handle_exit_status` never terminates — the offline branch has no `return`, so
the loop re-issues the request forever (it also emits nothing, as the claim
says). -/
theorem offline_diagnosis_never_exits :
    ∀ n : Nat,
      handle_exit_status_loop "gordongordon358" 1
        (List.replicate n
          (ApiResult.ok 200 (some ⟨[⟨"gordongordon358", false⟩]⟩) none)) =
        none := by
  intro n
  induction n with
  | zero => rfl
  | succ k ih =>
      rw [List.replicate_succ, handle_exit_status_loop]
      simpa [handle_exit_status_step] using ih

/-- C5: for a non-success exit, if after any number of network errors the search
API returns 200 with a record for the login whose `is_live` is true, the
diagnosis loop sends exactly one `(retry, login)` pair to the Correlator, sends
nothing on the restart channel, and exits the loop. -/
theorem retry_emitted_when_live (login : String) (json : StreamSearch)
    (entry : SearchData)
    (hfind : json.data.find? (fun d => d.broadcaster_login == login) =
      some entry)
    (hlive : entry.is_live = true) :
    ∀ (n wait : Nat),
      handle_exit_status_loop login wait
        (List.replicate n ApiResult.err ++ [ApiResult.ok 200 (some json) none]) =
        some ([("retry", login)], []) := by
  intro n
  induction n with
  | zero =>
      intro wait
      simp [handle_exit_status_loop, handle_exit_status_step, hfind, hlive]
  | succ k ih =>
      intro wait
      rw [List.replicate_succ, List.cons_append, handle_exit_status_loop]
      simpa [handle_exit_status_step] using ih (next_wait_exit wait)

theorem retry_emitted_when_live_witness :
    (StreamSearch.data ⟨[⟨"fishermarston19", true⟩]⟩).find?
        (fun d => d.broadcaster_login == "fishermarston19") =
      some ⟨"fishermarston19", true⟩ ∧
    SearchData.is_live ⟨"fishermarston19", true⟩ = true ∧
    handle_exit_status_loop "fishermarston19" 1
        (List.replicate 2 ApiResult.err ++
          [ApiResult.ok 200 (some ⟨[⟨"fishermarston19", true⟩]⟩) none]) =
      some ([("retry", "fishermarston19")], []) :=
  ⟨by decide, rfl,
    retry_emitted_when_live "fishermarston19" ⟨[⟨"fishermarston19", true⟩]⟩
      ⟨"fishermarston19", true⟩ (by decide) rfl 2 1⟩

/-- C8 (counterexample): a send by the Event Correlator to a closed Player
Spawner channel is not logged-and-dropped — `handle_event`'s
`.expect("Task spawner reciever closed")` panics, modelled as the
`Except.error` carrying the `expect` message. -/
theorem correlator_emit_panics_on_closed :
    handle_event_send [] ("live", "kaicenat") ("normal", 1080) false =
      Except.error "Task spawner reciever closed" := rfl

/-- C8 (amended): on a send to a closed downstream channel the Player Spawner's
forward to the Exit Diagnoser logs the failure and drops the pair without
panicking, but the Event Correlator's emission to the Player Spawner panics
(its send result goes through `expect`). -/
theorem closed_channel_send_outcomes :
    (∀ (streamer_name : String) (exit_code : Nat),
        task_spawner_forward false streamer_name exit_code =
          ForwardOutcome.loggedDropped) ∧
    (∀ (configs : List StreamConfig) (stream : String × String)
        (global_profile : String × Nat),
        handle_event_send configs stream global_profile false =
          Except.error "Task spawner reciever closed") := by
  exact ⟨fun _ _ => rfl, fun _ _ _ => rfl⟩

/-- C1: every `(tag, login)` pair received on either input channel of the Event
Correlator produces exactly one emitted pair, and that pair is `(login, q)`
where `q` is the quality of the override whose profile name equals the
global-profile name in the login's config when such a config and entry exist,
and the global-profile quality otherwise (including when no config for the
login exists).  The spec's uniqueness invariants (logins unique across the set,
profile names unique within a config) are the nodup hypotheses. -/
theorem live_event_resolution (configs : List StreamConfig)
    (global_profile : String × Nat) (tag login : String)
    (hnames : (configs.map StreamConfig.name).Nodup)
    (hprofiles : ∀ c ∈ configs, (c.quality_overides.map Prod.fst).Nodup) :
    (∀ events, (event_loop configs global_profile events).length =
      events.length) ∧
    (∀ c ∈ configs, c.name = login →
        (∀ ov ∈ c.quality_overides, ov.1 = global_profile.1 →
            handle_event configs (tag, login) global_profile = (login, ov.2)) ∧
        ((∀ ov ∈ c.quality_overides, ov.1 ≠ global_profile.1) →
            handle_event configs (tag, login) global_profile =
              (login, global_profile.2))) ∧
    ((∀ c ∈ configs, c.name ≠ login) →
        handle_event configs (tag, login) global_profile =
          (login, global_profile.2)) := by
  refine ⟨fun events => by simp [event_loop], ?_, ?_⟩
  · intro c hc hcname
    have hfind : configs.find? (fun streamer => streamer.name == login) =
        some c :=
      find?_key_of_mem_nodup StreamConfig.name hc hcname hnames
    constructor
    · intro ov hov hovp
      have hfind2 : c.quality_overides.find?
          (fun p => p.1 == global_profile.1) = some ov :=
        find?_key_of_mem_nodup Prod.fst hov hovp (hprofiles c hc)
      simp [handle_event, hfind, hfind2]
    · intro hnone
      have hfind2 : c.quality_overides.find?
          (fun p => p.1 == global_profile.1) = none :=
        find?_key_eq_none Prod.fst hnone
      simp [handle_event, hfind, hfind2]
  · intro habsent
    have hfind : configs.find? (fun streamer => streamer.name == login) =
        none :=
      find?_key_eq_none StreamConfig.name habsent
    simp [handle_event, hfind]

theorem live_event_resolution_witness :
    ((([⟨"kaicenat", 641972806, [("normal", 480)], [], []⟩] :
        List StreamConfig).map StreamConfig.name).Nodup ∧
      ([("normal", 480)].map (Prod.fst (α := String) (β := Nat))).Nodup) ∧
    handle_event [⟨"kaicenat", 641972806, [("normal", 480)], [], []⟩]
        ("live", "kaicenat") ("normal", 1080) = ("kaicenat", 480) :=
  ⟨⟨by decide, by decide⟩,
    ((live_event_resolution
        [⟨"kaicenat", 641972806, [("normal", 480)], [], []⟩] ("normal", 1080)
        "live" "kaicenat" (by decide)
        (by intro c hc; simp at hc; subst hc; decide)).2.1
      ⟨"kaicenat", 641972806, [("normal", 480)], [], []⟩ (by simp) rfl).1
      ("normal", 480) (by simp) rfl⟩

/-- C6: the value 2 is sent on the restart channel exactly when an actor
receives an HTTP 401 (from the subscription endpoint's POST or the search
endpoint's GET) or a websocket revocation message with status
`authorization_revoked`; no other step sends 2. -/
theorem restart_two_iff_credential_fault (step : ProgramStep) :
    2 ∈ restarts_of step ↔
      step = ProgramStep.subscribeResponse 401 ∨
      (∃ (stream_name : String) (wait : Nat) (json : Option StreamSearch)
          (text : Option String),
          step = ProgramStep.diagStep stream_name wait
            (ApiResult.ok 401 json text)) ∨
      (∃ sub : WebsocketSubscription,
          step = ProgramStep.socketNotifMsg MessageType.revocation
            (WebsocketPayload.revocationP sub) ∧
          sub.status = SubscriptionStatus.authorizationRevoked) := by
  cases step with
  | socketNotifMsg t p =>
      cases t with
      | notificationType =>
          cases p <;>
            simp [restarts_of, parse_connection_notification_message]
          split <;> simp
      | revocation =>
          cases p with
          | revocationP sub =>
              obtain ⟨st, v, status, bid⟩ := sub
              cases status <;>
                simp [restarts_of, parse_connection_notification_message]
          | notificationP sub =>
              simp [restarts_of, parse_connection_notification_message]
          | connection sid url =>
              simp [restarts_of, parse_connection_notification_message]
          | keepAlive =>
              simp [restarts_of, parse_connection_notification_message]
      | sessionWelcome =>
          simp [restarts_of, parse_connection_notification_message]
      | sessionKeepalive =>
          simp [restarts_of, parse_connection_notification_message]
      | sessionReconnect =>
          simp [restarts_of, parse_connection_notification_message]
  | socketReplyMsg t p sid dialOk =>
      cases t <;> cases p <;>
        simp [restarts_of, parse_connection_reply_message]
      rcases dialOk <;> try rename_i url
      all_goals try rcases url with _ | u
      all_goals simp
  | socketFrameError => simp [restarts_of]
  | socketIdleTimeout => simp [restarts_of]
  | subscribeResponse status =>
      by_cases h : status = 401 <;>
        simp [restarts_of, subscribe_response_restarts, h]
  | subscribeNetworkError => simp [restarts_of]
  | diagStep name wait r =>
      cases r with
      | ok status json text =>
          rw [restarts_of_diag_ok]
          by_cases h : status = 401 <;> simp [h]
      | err => simp [restarts_of, handle_exit_status_step]

/-- C7: in every run of the WebSocket Session's two sub-tasks from the initial
state (empty session-id cell, gate not passed), each subscribe call is preceded
by a welcome frame that stored a non-empty session-id, and the only step that
writes the session-id cell is a welcome frame. -/
theorem subscribe_after_welcome (ids : List Nat) (tr : List Ev)
    (final : SocketState) (hrun : SocketRun (init_state ids) tr final) :
    (∀ (t1 : List Ev) (id : Nat) (t2 : List Ev),
        tr = t1 ++ Ev.subscribeCall id :: t2 →
          ∃ sid, Ev.welcomeFrame sid ∈ t1 ∧ sid ≠ "") ∧
    (∀ (s s' : SocketState) (e : Ev), SocketStep s e s' →
        s'.session_id ≠ s.session_id → ∃ sid, e = Ev.welcomeFrame sid) := by
  constructor
  · intro t1 id t2 heq
    rcases socket_run_subscribe_aux hrun t1 id t2 heq with h | h | h
    · simp [init_state] at h
    · simp [init_state] at h
    · exact h
  · intro s s' e hstep hne
    cases hstep with
    | welcome sid => exact ⟨sid, rfl⟩
    | keepalive => exact absurd rfl hne
    | notify login => exact absurd rfl hne
    | gate h1 h2 => exact absurd rfl hne
    | subscribe id rest hg hp => exact absurd rfl hne

theorem subscribe_after_welcome_witness :
    ∃ sid, Ev.welcomeFrame sid ∈ [Ev.welcomeFrame "abc", Ev.gatePass] ∧
      sid ≠ "" := by
  have hrun : SocketRun (init_state [5])
      [Ev.welcomeFrame "abc", Ev.gatePass, Ev.subscribeCall 5]
      { session_id := "abc", gate_passed := true, pending := [] } := by
    refine SocketRun.cons (SocketStep.welcome _ "abc") ?_
    refine SocketRun.cons (SocketStep.gate _ (by decide) rfl) ?_
    exact SocketRun.cons (SocketStep.subscribe _ 5 [] rfl rfl) (SocketRun.nil _)
  exact (subscribe_after_welcome [5] _ _ hrun).1
    [Ev.welcomeFrame "abc", Ev.gatePass] 5 [] rfl

/-- C10: `Streams::edit_stream` is atomic and total on its error path — when
every override element has a quality part (a piece after a comma) and some
quality part is not a valid u16, the call returns an error with the streams
unchanged; and when the named stream is absent the call returns success with
the streams unchanged (both with a parsable override list and with none at
all). -/
theorem edit_stream_atomic (streams : List StreamConfig) (name : String)
    (overrides : List String)
    (hc : ∀ s ∈ overrides, 2 ≤ (split_commas s.data).length) :
    ((∃ s ∈ overrides, parse_u16 (quality_part s) = none) →
        edit_stream streams name (some overrides) =
          some (Except.error (), streams)) ∧
    ((∀ c ∈ streams, c.name ≠ name) →
        ((∀ s ∈ overrides, parse_u16 (quality_part s) ≠ none) →
            edit_stream streams name (some overrides) =
              some (Except.ok (), streams)) ∧
        edit_stream streams name none = some (Except.ok (), streams)) := by
  constructor
  · intro hex
    rw [edit_stream, collect_overrides_error hc hex]
  · intro habsent
    constructor
    · intro hall
      obtain ⟨ovs, hovs⟩ := collect_overrides_ok hc hall
      rw [edit_stream, hovs]
      simp [modify_first_config_absent ovs habsent]
    · rfl

theorem edit_stream_atomic_witness :
    (∀ s ∈ ["normal,abc"], 2 ≤ (split_commas s.data).length) ∧
    parse_u16 (quality_part "normal,abc") = none ∧
    edit_stream [] "kaicenat" (some ["normal,abc"]) =
      some (Except.error (), []) :=
  ⟨by decide, by decide,
    (edit_stream_atomic [] "kaicenat" ["normal,abc"] (by decide)).1
      ⟨"normal,abc", by simp, by decide⟩⟩

end StreamCave
